import Mathlib

/-!
Shallow embedding of the SBEMS anomaly-detection subsystem
(`sbems/analytics/anomaly_detector.py`) and the monitoring-system
construction (`sbems/core/monitoring_system.py`), with theorems settling
the frozen claims about them.

Modelling conventions:
* Python `datetime` values are epoch seconds (`ℤ`); `timedelta(hours=h)`
  is `h * 3600` seconds and `datetime.hour` is floor-division semantics.
* Python `float` sensor values are `ℚ`; quantities produced through
  `sqrt` (standard deviations, Pearson correlations) live in `ℝ` via
  `Real.sqrt`, so anomaly `confidence` is `ℝ`.
* Python `dict` is an insertion-ordered association list.
* Python `str` comparison is code-point lexicographic; it is modelled on
  `String.data : List Char` because `Char` comparison coincides with
  Python code-point comparison.
* The `sklearn.IsolationForest` model is external ML state; it is a
  parameter (`IsoModel`) supplying the zipped `fit_predict` /
  `decision_function` outputs.  Everything downstream of those outputs
  (confidence normalisation, severity, record construction) is embedded
  from the source.
* Presentational `Anomaly` fields (`description`, `recommendations`,
  `metadata`) are omitted: no claim mentions them.
-/

set_option maxHeartbeats 1000000

namespace SBEMS

/-! ### Python string comparison (code-point lexicographic) -/

/-- Python `str` strict `<`, on the character lists of the two strings. -/
def pyStrLtb : List Char → List Char → Bool
  | _, [] => false
  | [], _ :: _ => true
  | a :: as, b :: bs => if a < b then true else if a = b then pyStrLtb as bs else false

theorem pyStrLtb_irrefl (a : List Char) : pyStrLtb a a = false := by
  induction a with
  | nil => rfl
  | cons c cs ih => simp [pyStrLtb, ih]

theorem pyStrLtb_trans {a b c : List Char} (h₁ : pyStrLtb a b = true)
    (h₂ : pyStrLtb b c = true) : pyStrLtb a c = true := by
  induction a generalizing b c with
  | nil =>
    cases c with
    | nil =>
      cases b with
      | nil => exact h₁
      | cons y ys => simp [pyStrLtb] at h₂
    | cons z zs => simp [pyStrLtb]
  | cons x xs ih =>
    cases b with
    | nil => simp [pyStrLtb] at h₁
    | cons y ys =>
      cases c with
      | nil => simp [pyStrLtb] at h₂
      | cons z zs =>
        simp only [pyStrLtb] at h₁ h₂ ⊢
        by_cases hxy : x < y
        · by_cases hyz : y < z
          · rw [if_pos (lt_trans hxy hyz)]
          · by_cases hyz2 : y = z
            · subst hyz2
              rw [if_pos hxy]
            · rw [if_neg hyz, if_neg hyz2] at h₂
              exact absurd h₂ (by simp)
        · by_cases hxy2 : x = y
          · subst hxy2
            rw [if_neg hxy, if_pos rfl] at h₁
            by_cases hyz : x < z
            · rw [if_pos hyz]
            · by_cases hyz2 : x = z
              · subst hyz2
                rw [if_neg hyz, if_pos rfl] at h₂ ⊢
                exact ih h₁ h₂
              · rw [if_neg hyz, if_neg hyz2] at h₂
                exact absurd h₂ (by simp)
          · rw [if_neg hxy, if_neg hxy2] at h₁
            exact absurd h₁ (by simp)

theorem pyStrLtb_asymm {a b : List Char} (h : pyStrLtb a b = true) :
    pyStrLtb b a = false := by
  cases hh : pyStrLtb b a with
  | false => rfl
  | true =>
    have h0 := pyStrLtb_trans h hh
    rw [pyStrLtb_irrefl] at h0
    exact absurd h0 (by simp)

theorem pyStrLtb_connex {a b : List Char} (h₁ : pyStrLtb a b = false)
    (h₂ : pyStrLtb b a = false) : a = b := by
  induction a generalizing b with
  | nil =>
    cases b with
    | nil => rfl
    | cons y ys => simp [pyStrLtb] at h₁
  | cons x xs ih =>
    cases b with
    | nil => simp [pyStrLtb] at h₂
    | cons y ys =>
      simp only [pyStrLtb] at h₁ h₂
      by_cases hxy : x < y
      · rw [if_pos hxy] at h₁
        exact absurd h₁ (by simp)
      · by_cases hxy2 : x = y
        · subst hxy2
          rw [if_neg hxy, if_pos rfl] at h₁
          rw [if_neg hxy, if_pos rfl] at h₂
          rw [ih h₁ h₂]
        · have hyx : y < x := by
            rcases lt_trichotomy x y with h | h | h
            · exact absurd h hxy
            · exact absurd h hxy2
            · exact h
          rw [if_pos hyx] at h₂
          exact absurd h₂ (by simp)

/-! ### Enumerations (`AnomalyType`, `SeverityLevel`) -/

/-- Types of anomalies that can be detected (`AnomalyType` enum). -/
inductive AnomalyType where
  | energy_spike
  | equipment_failure
  | efficiency_drop
  | network_isolation
  | seasonal_deviation
  | occupancy_mismatch
  | unknown
deriving DecidableEq, Repr

/-- Enum `.value` strings of `AnomalyType`, as in the source. -/
def AnomalyType.value : AnomalyType → String
  | .energy_spike => "energy_spike"
  | .equipment_failure => "equipment_failure"
  | .efficiency_drop => "efficiency_drop"
  | .network_isolation => "network_isolation"
  | .seasonal_deviation => "seasonal_deviation"
  | .occupancy_mismatch => "occupancy_mismatch"
  | .unknown => "unknown"

/-- Severity levels for anomalies (`SeverityLevel` enum). -/
inductive SeverityLevel where
  | low
  | medium
  | high
  | critical
deriving DecidableEq, Repr

/-- Enum `.value` strings of `SeverityLevel`, as in the source. -/
def SeverityLevel.value : SeverityLevel → String
  | .low => "low"
  | .medium => "medium"
  | .high => "high"
  | .critical => "critical"

/-- Character list of a severity's `.value` string (the form in which the
Python string participates in tuple comparison during sorting). -/
def SeverityLevel.valueChars (s : SeverityLevel) : List Char := s.value.data

/-- Enum definition order of `SeverityLevel` (Python `Enum` iteration order). -/
def severityLevels : List SeverityLevel := [.low, .medium, .high, .critical]

/-- Enum definition order of `AnomalyType` (Python `Enum` iteration order). -/
def anomalyTypes : List AnomalyType :=
  [.energy_spike, .equipment_failure, .efficiency_drop, .network_isolation,
   .seasonal_deviation, .occupancy_mismatch, .unknown]

/-! ### Readings and anomalies -/

/-- One stored sensor reading (the dict built by `add_sensor_reading`;
the `metadata` entry is omitted as presentational). -/
structure Reading where
  timestamp : ℤ
  value : ℚ
  sensor_type : String
  zone_id : Option String
deriving DecidableEq

/-- Unreachable placeholder used to model Python `readings[-1]` at call
sites where the source guarantees the list is nonempty. -/
def defaultReading : Reading := ⟨0, 0, "", none⟩

/-- A detected anomaly (dataclass `Anomaly`); `description`,
`recommendations` and `metadata` are presentational and omitted. -/
structure Anomaly where
  sensor_id : String
  anomaly_type : AnomalyType
  severity : SeverityLevel
  confidence : ℝ
  timestamp : ℤ
  value : ℚ
  expected_range : ℝ × ℝ

/-! ### numpy / pandas statistics helpers -/

/-- `np.mean` of a list of values. -/
def qmean (xs : List ℚ) : ℚ := xs.sum / (xs.length : ℚ)

/-- Sum of squared deviations from the mean (the common core of the
variance computations). -/
def sqDevSum (xs : List ℚ) : ℚ := (xs.map (fun x => (x - qmean xs) ^ 2)).sum

/-- `np.var`: population variance (ddof = 0). -/
def popVar (xs : List ℚ) : ℚ := sqDevSum xs / (xs.length : ℚ)

/-- `np.std`: population standard deviation. -/
noncomputable def npStd (xs : List ℚ) : ℝ := Real.sqrt (popVar xs)

/-- Pandas sample variance (ddof = 1), the aggregation used by
`df.groupby('hour')['value'].agg('std')`. -/
def sampleVar (xs : List ℚ) : ℚ := sqDevSum xs / ((xs.length : ℚ) - 1)

/-- Pandas `std` with the source's `.fillna(0)`: a single-element group
has `NaN` sample deviation, which `fillna` maps to `0`. -/
noncomputable def pandasStd (xs : List ℚ) : ℝ :=
  if xs.length ≤ 1 then 0 else Real.sqrt (sampleVar xs)

/-- Centered cross-product sum `Σ (x-x̄)(y-ȳ)` of two aligned series. -/
def crossDevSum (xs ys : List ℚ) : ℚ :=
  ((xs.zip ys).map (fun p => (p.1 - qmean xs) * (p.2 - qmean ys))).sum

/-- `np.corrcoef(xs, ys)[0, 1]`: Pearson correlation; `none` models the
`NaN` produced when either series has zero variance. -/
noncomputable def pearson (xs ys : List ℚ) : Option ℝ :=
  if sqDevSum xs = 0 ∨ sqDevSum ys = 0 then none
  else some ((crossDevSum xs ys : ℝ) / Real.sqrt ((sqDevSum xs : ℝ) * (sqDevSum ys : ℝ)))

theorem qmean_nonneg_of (xs : List ℚ) (h : ∀ x ∈ xs, 0 ≤ x) : 0 ≤ qmean xs := by
  unfold qmean
  apply div_nonneg _ (by positivity)
  exact List.sum_nonneg h

theorem sqDevSum_nonneg (xs : List ℚ) : 0 ≤ sqDevSum xs := by
  unfold sqDevSum
  apply List.sum_nonneg
  intro x hx
  obtain ⟨y, _, rfl⟩ := List.mem_map.mp hx
  positivity

theorem popVar_nonneg (xs : List ℚ) : 0 ≤ popVar xs := by
  unfold popVar
  exact div_nonneg (sqDevSum_nonneg xs) (by positivity)

theorem npStd_nonneg (xs : List ℚ) : 0 ≤ npStd xs := Real.sqrt_nonneg _

theorem npStd_eq_zero_iff (xs : List ℚ) : npStd xs = 0 ↔ popVar xs = 0 := by
  unfold npStd
  rw [Real.sqrt_eq_zero (by exact_mod_cast popVar_nonneg xs)]
  exact_mod_cast Iff.rfl

end SBEMS

namespace SBEMS

open scoped Classical

/-! ### The Python sort of `detect_anomalies`

`detected_anomalies.sort(key=lambda x: (x.severity.value, x.timestamp), reverse=True)`
compares `(str, datetime)` tuples: lexicographically on the severity's
`.value` string (code-point order), then on the timestamp.  Python's sort
is stable; a stable reverse sort is extensionally the insertion sort that
lets `a` precede `b` exactly when `key a` is not smaller than `key b`,
keeping earlier elements first on ties. -/

/-- Python tuple `<` on the `(severity.value, timestamp)` sort keys. -/
def keyLtb (x y : List Char × ℤ) : Bool :=
  pyStrLtb x.1 y.1 || (decide (x.1 = y.1) && decide (x.2 < y.2))

/-- Sort key of an anomaly: `(x.severity.value, x.timestamp)`. -/
def pyKey (a : Anomaly) : List Char × ℤ := (a.severity.valueChars, a.timestamp)

/-- Relation "may precede in `reverse=True` sorted output": the key is not
strictly smaller. -/
def sortRel (a b : Anomaly) : Prop := keyLtb (pyKey a) (pyKey b) = false

instance : DecidableRel sortRel := fun a b => by
  unfold sortRel
  infer_instance

theorem keyLtb_asymm {x y : List Char × ℤ} (h : keyLtb x y = true) :
    keyLtb y x = false := by
  unfold keyLtb at h ⊢
  rcases Bool.or_eq_true_iff.mp h with hs | hp
  · rw [pyStrLtb_asymm hs]
    have hne : ¬ (y.1 = x.1) := by
      intro he
      rw [he, pyStrLtb_irrefl] at hs
      exact absurd hs (by simp)
    simp [hne]
  · have h1 : x.1 = y.1 := by
      have := Bool.and_eq_true_iff.mp hp
      exact of_decide_eq_true this.1
    have h2 : x.2 < y.2 := by
      have := Bool.and_eq_true_iff.mp hp
      exact of_decide_eq_true this.2
    have hs : pyStrLtb y.1 x.1 = false := by
      rw [h1, pyStrLtb_irrefl]
    rw [hs]
    simp [not_lt.mpr (le_of_lt h2)]

theorem keyLtb_false_trans {x y z : List Char × ℤ} (h₁ : keyLtb x y = false)
    (h₂ : keyLtb y z = false) : keyLtb x z = false := by
  unfold keyLtb at h₁ h₂ ⊢
  rw [Bool.or_eq_false_iff] at h₁ h₂
  rw [Bool.or_eq_false_iff]
  obtain ⟨h₁s, h₁p⟩ := h₁
  obtain ⟨h₂s, h₂p⟩ := h₂
  have hyx : pyStrLtb y.1 x.1 = true ∨ y.1 = x.1 := by
    cases hc : pyStrLtb y.1 x.1 with
    | true => exact Or.inl rfl
    | false => exact Or.inr (pyStrLtb_connex hc h₁s)
  have hzy : pyStrLtb z.1 y.1 = true ∨ z.1 = y.1 := by
    cases hc : pyStrLtb z.1 y.1 with
    | true => exact Or.inl rfl
    | false => exact Or.inr (pyStrLtb_connex hc h₂s)
  constructor
  · cases hc : pyStrLtb x.1 z.1 with
    | false => rfl
    | true =>
      exfalso
      rcases hyx with hyx | hyx <;> rcases hzy with hzy | hzy
      · have := pyStrLtb_trans (pyStrLtb_trans hc hzy) hyx
        rw [pyStrLtb_irrefl] at this
        exact absurd this (by simp)
      · rw [hzy] at hc
        have := pyStrLtb_trans hc hyx
        rw [pyStrLtb_irrefl] at this
        exact absurd this (by simp)
      · rw [hyx] at hzy
        have := pyStrLtb_trans hc hzy
        rw [pyStrLtb_irrefl] at this
        exact absurd this (by simp)
      · rw [hyx] at hzy
        rw [hzy, pyStrLtb_irrefl] at hc
        exact absurd hc (by simp)
  · rw [Bool.and_eq_false_iff]
    by_cases hxz : x.1 = z.1
    · rcases hyx with hyx | hyx
      · exfalso
        rcases hzy with hzy | hzy
        · have := pyStrLtb_trans hzy hyx
          rw [← hxz, pyStrLtb_irrefl] at this
          exact absurd this (by simp)
        · rw [← hzy, ← hxz, pyStrLtb_irrefl] at hyx
          exact absurd hyx (by simp)
      · rcases hzy with hzy | hzy
        · exfalso
          rw [hyx, hxz, pyStrLtb_irrefl] at hzy
          exact absurd hzy (by simp)
        · have e1 : x.1 = y.1 := hyx.symm
          have e2 : y.1 = z.1 := hzy.symm
          have hxy2 : ¬ x.2 < y.2 := by
            rw [Bool.and_eq_false_iff] at h₁p
            rcases h₁p with h | h
            · exact absurd (decide_eq_true e1) (by simp [h])
            · exact of_decide_eq_false h
          have hyz2 : ¬ y.2 < z.2 := by
            rw [Bool.and_eq_false_iff] at h₂p
            rcases h₂p with h | h
            · exact absurd (decide_eq_true e2) (by simp [h])
            · exact of_decide_eq_false h
          right
          simp only [decide_eq_false_iff_not]
          omega
    · left
      simp [hxz]

instance : IsTotal Anomaly sortRel where
  total a b := by
    unfold sortRel
    cases hc : keyLtb (pyKey a) (pyKey b) with
    | false => exact Or.inl rfl
    | true => exact Or.inr (keyLtb_asymm hc)

instance : IsTrans Anomaly sortRel where
  trans a b c h₁ h₂ := keyLtb_false_trans h₁ h₂

/-- The `reverse=True` stable sort applied to the list returned by
`detect_anomalies` (line 188 of `anomaly_detector.py`). -/
def pySortDesc (l : List Anomaly) : List Anomaly := l.insertionSort sortRel

/-! ### Detector state and the per-sensor reading store -/

/-- Sensor adjacency graph (`networkx.Graph`): node list plus undirected
edge list; only node membership and degree-zero tests are consumed. -/
structure NetworkGraph where
  nodes : List String
  edges : List (String × String)

/-- Degree of a node: number of incident edges. -/
def NetworkGraph.degree (g : NetworkGraph) (n : String) : ℕ :=
  (g.edges.filter (fun e => e.1 == n || e.2 == n)).length

/-- Mutable attributes of `AnomalyDetector` (constructor defaults of
`__init__`); `sensor_data` is the insertion-ordered per-sensor dict. -/
structure DetectorState where
  window_size : ℕ := 50
  contamination : ℚ := 0.05
  min_samples_for_detection : ℕ := 20
  network_analysis : Bool := true
  sensor_data : List (String × List Reading) := []
  detected_anomalies : List Anomaly := []
  network_graph : Option NetworkGraph := none
  energy_spike_threshold : ℚ := 2

/-- Dict indexing `self.sensor_data[sensor_id]` (first matching key). -/
def storeLookup (d : List (String × List Reading)) (k : String) :
    Option (List Reading) :=
  (d.find? (fun p => p.1 == k)).map Prod.snd

/-- Dict write-through: update the value at key `k` (creating the key at
the end, as Python dict insertion does, when absent). -/
def storeUpdate (d : List (String × List Reading)) (k : String)
    (f : List Reading → List Reading) : List (String × List Reading) :=
  match d with
  | [] => [(k, f [])]
  | (k', v) :: rest =>
      if k' = k then (k', f v) :: rest else (k', v) :: storeUpdate rest k f

/-- Body of `add_sensor_reading` acting on one sensor's list: append the
reading, then `pop(0)` once if the length exceeds `window_size`
(lines 133-137). -/
def bufferAdd (window_size : ℕ) (buf : List Reading) (r : Reading) : List Reading :=
  let appended := buf ++ [r]
  if window_size < appended.length then appended.drop 1 else appended

/-- `add_sensor_reading`: store a new reading for `sensor_id`, bounding
the per-sensor history at `window_size`. -/
def add_sensor_reading (st : DetectorState) (sensor_id : String) (r : Reading) :
    DetectorState :=
  { st with sensor_data :=
      storeUpdate st.sensor_data sensor_id (fun cur => bufferAdd st.window_size cur r) }

/-! ### The individual detection checks -/

/-- `_is_energy_sensor`. -/
def is_energy_sensor (sensor_type : String) : Bool :=
  (["energy_power", "energy_voltage", "energy_current", "energy_total"] :
    List String).contains sensor_type

/-- `_calculate_severity` (the `value` and `readings` arguments are unused,
as in the source). -/
def calculate_severity (confidence : ℚ) (value : ℚ) (readings : List Reading) :
    SeverityLevel :=
  if 0.8 < confidence then .critical
  else if 0.6 < confidence then .high
  else if 0.4 < confidence then .medium
  else .low

/-- `_calculate_expected_range`: `(mean - 2*std, mean + 2*std)`. -/
noncomputable def calculate_expected_range (readings : List Reading) : ℝ × ℝ :=
  let values := readings.map Reading.value
  ((qmean values : ℝ) - 2 * npStd values, (qmean values : ℝ) + 2 * npStd values)

/-- External `sklearn.IsolationForest` behaviour: for a reading window, the
zipped `fit_predict` / `decision_function` outputs (prediction, score). -/
def IsoModel := List Reading → List (ℤ × ℚ)

/-- `_detect_isolation_forest_anomalies`, downstream of the model outputs:
a flagged point (prediction `-1`) becomes an `UNKNOWN` anomaly with
confidence `min(1, |score|/0.5)` and severity from `_calculate_severity`. -/
noncomputable def detect_isolation_forest_anomalies (iso : IsoModel)
    (sensor_id : String) (readings : List Reading) : List Anomaly :=
  ((iso readings).zip readings).filterMap (fun pr =>
    if pr.1.1 = -1 then
      some { sensor_id := sensor_id,
             anomaly_type := .unknown,
             severity := calculate_severity (min 1 (|pr.1.2| / 0.5)) pr.2.value readings,
             confidence := ((min 1 (|pr.1.2| / 0.5) : ℚ) : ℝ),
             timestamp := pr.2.timestamp,
             value := pr.2.value,
             expected_range := calculate_expected_range readings }
    else none)

/-- `_detect_energy_anomalies` (lines 224-266). -/
noncomputable def detect_energy_anomalies (energy_spike_threshold : ℚ)
    (sensor_id : String) (readings : List Reading) : List Anomaly :=
  let latest_reading := readings.getLastD defaultReading
  if is_energy_sensor latest_reading.sensor_type then
    let values := readings.map Reading.value
    if 10 ≤ values.length then
      let recent_mean := qmean (values.drop (values.length - 10))
      let historical_mean :=
        if 10 < values.length then qmean (values.take (values.length - 10))
        else recent_mean
      let historical_std : ℝ :=
        if 10 < values.length then npStd (values.take (values.length - 10))
        else npStd values
      if 0 < historical_std then
        let z_score : ℝ := ((recent_mean : ℝ) - (historical_mean : ℝ)) / historical_std
        if (energy_spike_threshold : ℝ) < |z_score| then
          [{ sensor_id := sensor_id,
             anomaly_type := .energy_spike,
             severity := if 3 < |z_score| then .high else .medium,
             confidence := min 1 (|z_score| / 3),
             timestamp := latest_reading.timestamp,
             value := latest_reading.value,
             expected_range := ((historical_mean : ℝ) - 2 * historical_std,
                                (historical_mean : ℝ) + 2 * historical_std) }]
        else []
      else []
    else []
  else []

/-- Python `datetime.hour` of an epoch-second timestamp. -/
def hourOfTimestamp (t : ℤ) : ℤ := (Int.ediv t 3600).emod 24

/-- Values of the readings falling in hour-of-day bucket `h` (the group of
`df.groupby('hour')['value']` that the temporal check actually reads:
the bucket of the latest reading's hour). -/
def hour_bucket (readings : List Reading) (h : ℤ) : List ℚ :=
  (readings.filter (fun r => hourOfTimestamp r.timestamp == h)).map Reading.value

/-- `_detect_temporal_anomalies` (lines 268-316).  The source computes the
whole groupby table but only indexes the latest reading's hour, so only
that bucket's mean/std is embedded; `current_hour in hourly_patterns.index`
is the bucket-nonempty test. -/
noncomputable def detect_temporal_anomalies (sensor_id : String)
    (readings : List Reading) : List Anomaly :=
  if readings.length < 24 then []
  else
    let latest_reading := readings.getLastD defaultReading
    let current_hour := hourOfTimestamp latest_reading.timestamp
    let bucket := hour_bucket readings current_hour
    if bucket.isEmpty then []
    else
      let expected_mean := qmean bucket
      let expected_std := pandasStd bucket
      if 0 < expected_std then
        let deviation := |(latest_reading.value : ℝ) - (expected_mean : ℝ)| / expected_std
        if 2.5 < deviation then
          [{ sensor_id := sensor_id,
             anomaly_type := .seasonal_deviation,
             severity := if 4 < deviation then .high else .medium,
             confidence := min 1 (deviation / 4),
             timestamp := latest_reading.timestamp,
             value := latest_reading.value,
             expected_range := ((expected_mean : ℝ) - 2 * expected_std,
                                (expected_mean : ℝ) + 2 * expected_std) }]
        else []
      else []

/-- Timestamp-keyed dict comprehension `{r["timestamp"]: r["value"] ...}`:
duplicate timestamps keep the first position but the last value. -/
def dictInsert (d : List (ℤ × ℚ)) (k : ℤ) (v : ℚ) : List (ℤ × ℚ) :=
  match d with
  | [] => [(k, v)]
  | (k', v') :: rest =>
      if k' = k then (k', v) :: rest else (k', v') :: dictInsert rest k v

/-- Timestamp dict of a reading list. -/
def tsDict (rs : List Reading) : List (ℤ × ℚ) :=
  rs.foldl (fun d r => dictInsert d r.timestamp r.value) []

/-- `_align_sensor_readings`: greedy first match within 60 seconds. -/
def align_sensor_readings (readings1 readings2 : List Reading) : List (ℚ × ℚ) :=
  (tsDict readings1).filterMap (fun p =>
    ((tsDict readings2).find? (fun q => decide (|p.1 - q.1| ≤ 60))).map
      (fun q => (p.2, q.2)))

/-- `_analyze_sensor_correlation` (lines 349-396); `sensor2_id` only feeds
the omitted description string. -/
noncomputable def analyze_sensor_correlation (sensor1_id sensor2_id : String)
    (readings1 readings2 : List Reading) : Option Anomaly :=
  let common_readings := align_sensor_readings readings1 readings2
  if common_readings.length < 10 then none
  else
    let values1 := common_readings.map Prod.fst
    let values2 := common_readings.map Prod.snd
    match pearson values1 values2 with
    | none => none
    | some correlation =>
      match pearson (values1.drop (values1.length - 10))
          (values2.drop (values2.length - 10)) with
      | none => none
      | some recent_corr =>
        if (0.5 : ℝ) < |correlation - recent_corr| then
          let latest_reading := readings1.getLastD defaultReading
          some { sensor_id := sensor1_id,
                 anomaly_type := .network_isolation,
                 severity := .medium,
                 confidence := |correlation - recent_corr|,
                 timestamp := latest_reading.timestamp,
                 value := latest_reading.value,
                 expected_range := calculate_expected_range readings1 }
        else none

/-- Python truthiness of the target zone (`if target_zone and ...`). -/
def zoneTruthy : Option String → Bool
  | none => false
  | some s => !(s == "")

/-- `_detect_correlation_anomalies` (lines 318-347). -/
noncomputable def detect_correlation_anomalies (st : DetectorState)
    (sensor_id : String) (readings : List Reading) : List Anomaly :=
  if st.sensor_data.length < 2 then []
  else
    let target_zone := (readings.getLastD defaultReading).zone_id
    let correlated_sensors := st.sensor_data.filter (fun p =>
      !(p.1 == sensor_id) && !(decide (p.2.length < st.min_samples_for_detection)) &&
        zoneTruthy target_zone && ((p.2.getLastD defaultReading).zone_id == target_zone))
    if correlated_sensors.isEmpty then []
    else correlated_sensors.filterMap (fun p =>
      analyze_sensor_correlation sensor_id p.1 readings p.2)

/-- `_detect_network_anomalies` (lines 398-434): each graph node of degree
zero whose sensor has a nonempty stored history yields a HIGH,
confidence-1.0 anomaly at its latest reading. -/
noncomputable def detect_network_anomalies (st : DetectorState) : List Anomaly :=
  match st.network_graph with
  | none => []
  | some g =>
    let isolated_nodes := g.nodes.filter (fun n => g.degree n == 0)
    isolated_nodes.filterMap (fun sensor_id =>
      match storeLookup st.sensor_data sensor_id with
      | none => none
      | some rs =>
        if rs.isEmpty then none
        else some { sensor_id := sensor_id,
                    anomaly_type := .network_isolation,
                    severity := .high,
                    confidence := 1,
                    timestamp := (rs.getLastD defaultReading).timestamp,
                    value := (rs.getLastD defaultReading).value,
                    expected_range := calculate_expected_range rs })

end SBEMS

namespace SBEMS

/-! ### `detect_anomalies` -/

/-- Python truthiness of `self.network_graph` (`networkx` graphs are falsy
when they have no nodes). -/
def graphTruthy : Option NetworkGraph → Bool
  | none => false
  | some g => !g.nodes.isEmpty

/-- Per-sensor loop of `detect_anomalies` (lines 154-177): unguarded dict
indexing raises `KeyError` (`Except.error ()`) for an unknown sensor id;
a sensor below `min_samples_for_detection` is skipped; otherwise the four
checks run and their findings are concatenated in order. -/
noncomputable def detectAnomaliesLoop (iso : IsoModel) (st : DetectorState) :
    List String → Except Unit (List Anomaly)
  | [] => .ok []
  | sensor_id :: rest =>
    match storeLookup st.sensor_data sensor_id with
    | none => .error ()
    | some readings =>
      let anomalies :=
        if readings.length < st.min_samples_for_detection then []
        else
          detect_isolation_forest_anomalies iso sensor_id readings ++
          detect_energy_anomalies st.energy_spike_threshold sensor_id readings ++
          detect_temporal_anomalies sensor_id readings ++
          detect_correlation_anomalies st sensor_id readings
      match detectAnomaliesLoop iso st rest with
      | .error e => .error e
      | .ok more => .ok (anomalies ++ more)

/-- `detect_anomalies` (lines 139-191): loop over the requested sensors
(default: all stored ids), append the network-isolation findings, extend
the persistent store with the unsorted findings, and return the findings
sorted by `(severity.value, timestamp)` descending. -/
noncomputable def detect_anomalies (iso : IsoModel) (st : DetectorState)
    (sensor_ids : Option (List String)) :
    Except Unit (List Anomaly × DetectorState) :=
  let ids := match sensor_ids with
    | none => st.sensor_data.map Prod.fst
    | some l => l
  match detectAnomaliesLoop iso st ids with
  | .error e => .error e
  | .ok per_sensor =>
    let network_anomalies :=
      if st.network_analysis && graphTruthy st.network_graph
      then detect_network_anomalies st else []
    let detected := per_sensor ++ network_anomalies
    let st' := { st with detected_anomalies := st.detected_anomalies ++ detected }
    .ok (pySortDesc detected, st')

/-- The anomaly list a `detect_anomalies` call returns (empty on the
`KeyError` path), for hypothesis-free statements. -/
noncomputable def detectResultList (iso : IsoModel) (st : DetectorState)
    (sensor_ids : Option (List String)) : List Anomaly :=
  match detect_anomalies iso st sensor_ids with
  | .ok p => p.1
  | .error _ => []

/-- Stored reading count of a sensor (zero when the id is unknown). -/
def sensorCount (st : DetectorState) (sensor_id : String) : ℕ :=
  ((storeLookup st.sensor_data sensor_id).getD []).length

/-! ### `get_anomaly_summary` -/

/-- Return value of `get_anomaly_summary`; dict keys become ordered
association lists, ISO timestamp strings stay as timestamps. -/
structure AnomalySummary where
  total_anomalies : ℕ
  by_severity : List (String × ℕ)
  by_type : List (String × ℕ)
  most_recent : Option ℤ
  critical_sensors : List String

/-- `get_anomaly_summary(hours)` (lines 482-507); `now` is the
`datetime.now()` reference instant.  `list(set(...))` for
`critical_sensors` is modelled as first-occurrence deduplication (Python
set order is unspecified; no claim depends on it). -/
def get_anomaly_summary (st : DetectorState) (now : ℤ) (hours : ℤ) :
    AnomalySummary :=
  let cutoff_time := now - hours * 3600
  let recent_anomalies := st.detected_anomalies.filter
    (fun a => decide (cutoff_time ≤ a.timestamp))
  { total_anomalies := recent_anomalies.length,
    by_severity := severityLevels.map (fun level =>
      (level.value, (recent_anomalies.filter (fun a => a.severity == level)).length)),
    by_type := anomalyTypes.map (fun atype =>
      (atype.value, (recent_anomalies.filter (fun a => a.anomaly_type == atype)).length)),
    most_recent := recent_anomalies.head?.map Anomaly.timestamp,
    critical_sensors := ((recent_anomalies.filter
      (fun a => a.severity == SeverityLevel.critical)).map Anomaly.sensor_id).dedup }

/-! ### `MonitoringSystem` construction (`core/monitoring_system.py`) -/

/-- `MonitoringConfig` dataclass (lines 22-31): plain fields with
defaults and no `__post_init__`, hence no validation of any kind. -/
structure MonitoringConfig where
  sampling_interval : ℤ := 60
  anomaly_check_interval : ℤ := 300
  auto_start : Bool := true
  save_history : Bool := true
  max_history_size : ℤ := 10000
  enable_alerts : Bool := true
  alert_threshold : String := "medium"

/-- State established by `MonitoringSystem.__init__` (lines 47-73); the
`building` collaborator and the thread/event handles are external and
omitted.  The constructor body only assigns attributes: it contains no
validation and no `raise`, so it is a total function of the config. -/
structure MonitoringSystemState where
  config : MonitoringConfig
  anomaly_detector : DetectorState
  is_running : Bool
  reading_history_len : ℕ
  alert_history_len : ℕ
  total_readings : ℕ
  total_anomalies : ℕ

/-- `MonitoringSystem.__init__`: accepts any config (`config or
MonitoringConfig()`) and initialises the bookkeeping attributes. -/
def monitoring_system_init (config : Option MonitoringConfig) :
    MonitoringSystemState :=
  { config := config.getD {},
    anomaly_detector := {},
    is_running := false,
    reading_history_len := 0,
    alert_history_len := 0,
    total_readings := 0,
    total_anomalies := 0 }

/-! ### Claim-side ordering predicate (C1's wording)

C1 states the output of `detect_anomalies` is ordered by severity RANK
(low < medium < high < critical) descending, ties broken by more recent
timestamp.  These definitions transcribe the claim, to be compared with
the behaviour of the embedded sort. -/

/-- Rank order of severities as the claim reads it. -/
def severityRank : SeverityLevel → ℕ
  | .low => 0
  | .medium => 1
  | .high => 2
  | .critical => 3

/-- The ordering C1 asserts of the returned list: strictly higher rank
first, equal ranks ordered by more recent timestamp first. -/
def SortedBySeverityRankDesc (l : List Anomaly) : Prop :=
  l.Pairwise (fun a b =>
    severityRank b.severity < severityRank a.severity ∨
      (b.severity = a.severity ∧ b.timestamp ≤ a.timestamp))

end SBEMS

namespace SBEMS

/-! ### Concrete scenarios

Concrete detector states used to exercise the embedded code on explicit
inputs: one mixed-severity detection run (`st0`), one correlated sensor
pair whose correlation collapses (`st3`), an energy-spike window matching
the spec's worked example (`e7Readings`), a constant 24-reading window
for the temporal check (`c8Readings`), and small stores for the summary
and construction checks. -/

/-- Twenty readings for sensor `s1`: timestamps 0, 200, ..., 3800,
constant value 5, non-energy type, no zone. -/
def s1Readings : List Reading :=
  [⟨0, 5, "unknown", none⟩, ⟨200, 5, "unknown", none⟩, ⟨400, 5, "unknown", none⟩,
   ⟨600, 5, "unknown", none⟩, ⟨800, 5, "unknown", none⟩, ⟨1000, 5, "unknown", none⟩,
   ⟨1200, 5, "unknown", none⟩, ⟨1400, 5, "unknown", none⟩, ⟨1600, 5, "unknown", none⟩,
   ⟨1800, 5, "unknown", none⟩, ⟨2000, 5, "unknown", none⟩, ⟨2200, 5, "unknown", none⟩,
   ⟨2400, 5, "unknown", none⟩, ⟨2600, 5, "unknown", none⟩, ⟨2800, 5, "unknown", none⟩,
   ⟨3000, 5, "unknown", none⟩, ⟨3200, 5, "unknown", none⟩, ⟨3400, 5, "unknown", none⟩,
   ⟨3600, 5, "unknown", none⟩, ⟨3800, 5, "unknown", none⟩]

/-- The single stored reading of sensor `s2`. -/
def s2Reading : Reading := ⟨5000, 7, "unknown", none⟩

/-- Model instance flagging the first reading as an outlier with decision
score 1/4 (a legitimate `fit_predict` / `decision_function` outcome). -/
def isoFlagFirst : IsoModel := fun _ => [(-1, 1/4)]

/-- Detector state with a 20-reading sensor `s1` (exactly at the
min-samples threshold), a 1-reading sensor `s2`, and a network graph in
which `s2` is an isolated node. -/
def st0 : DetectorState :=
  { sensor_data := [("s1", s1Readings), ("s2", [s2Reading])],
    network_graph := some ⟨["s2"], []⟩ }

/-- The isolation-forest finding of the `st0` run: flagged first reading,
confidence `min(1, |1/4|/0.5) = 1/2`, hence severity `medium`. -/
noncomputable def isoAnom0 : Anomaly :=
  { sensor_id := "s1", anomaly_type := .unknown,
    severity := calculate_severity (min 1 (|(1/4 : ℚ)| / 0.5)) 5 s1Readings,
    confidence := ((min 1 (|(1/4 : ℚ)| / 0.5) : ℚ) : ℝ), timestamp := 0, value := 5,
    expected_range := calculate_expected_range s1Readings }

/-- The network-isolation finding of the `st0` run: isolated sensor `s2`,
severity `high`, confidence 1, at its latest (only) reading. -/
noncomputable def netAnom0 : Anomaly :=
  { sensor_id := "s2", anomaly_type := .network_isolation, severity := .high,
    confidence := 1, timestamp := 5000, value := 7,
    expected_range := calculate_expected_range [s2Reading] }

/-- First sensor of the correlation pair: ten strongly co-moving large
values (0, 100, ..., 900), then the ramp 0..9; all in zone `z`. -/
def corrReadings1 : List Reading :=
  [⟨0, 0, "unknown", some "z"⟩, ⟨200, 100, "unknown", some "z"⟩,
   ⟨400, 200, "unknown", some "z"⟩, ⟨600, 300, "unknown", some "z"⟩,
   ⟨800, 400, "unknown", some "z"⟩, ⟨1000, 500, "unknown", some "z"⟩,
   ⟨1200, 600, "unknown", some "z"⟩, ⟨1400, 700, "unknown", some "z"⟩,
   ⟨1600, 800, "unknown", some "z"⟩, ⟨1800, 900, "unknown", some "z"⟩,
   ⟨2000, 0, "unknown", some "z"⟩, ⟨2200, 1, "unknown", some "z"⟩,
   ⟨2400, 2, "unknown", some "z"⟩, ⟨2600, 3, "unknown", some "z"⟩,
   ⟨2800, 4, "unknown", some "z"⟩, ⟨3000, 5, "unknown", some "z"⟩,
   ⟨3200, 6, "unknown", some "z"⟩, ⟨3400, 7, "unknown", some "z"⟩,
   ⟨3600, 8, "unknown", some "z"⟩, ⟨3800, 9, "unknown", some "z"⟩]

/-- Second sensor of the correlation pair: identical first half, reversed
ramp 9..0 on the second half (perfect recent anticorrelation). -/
def corrReadings2 : List Reading :=
  [⟨0, 0, "unknown", some "z"⟩, ⟨200, 100, "unknown", some "z"⟩,
   ⟨400, 200, "unknown", some "z"⟩, ⟨600, 300, "unknown", some "z"⟩,
   ⟨800, 400, "unknown", some "z"⟩, ⟨1000, 500, "unknown", some "z"⟩,
   ⟨1200, 600, "unknown", some "z"⟩, ⟨1400, 700, "unknown", some "z"⟩,
   ⟨1600, 800, "unknown", some "z"⟩, ⟨1800, 900, "unknown", some "z"⟩,
   ⟨2000, 9, "unknown", some "z"⟩, ⟨2200, 8, "unknown", some "z"⟩,
   ⟨2400, 7, "unknown", some "z"⟩, ⟨2600, 6, "unknown", some "z"⟩,
   ⟨2800, 5, "unknown", some "z"⟩, ⟨3000, 4, "unknown", some "z"⟩,
   ⟨3200, 3, "unknown", some "z"⟩, ⟨3400, 2, "unknown", some "z"⟩,
   ⟨3600, 1, "unknown", some "z"⟩, ⟨3800, 0, "unknown", some "z"⟩]

/-- Detector state holding the correlated sensor pair (both at the
min-samples threshold, same zone). -/
def st3 : DetectorState :=
  { sensor_data := [("c1", corrReadings1), ("c2", corrReadings2)] }

/-- Energy window of the spec's worked example: historical segment
alternating 18/22 (mean 20, std 2), recent segment constant 28
(mean 28, z = 4). -/
def e7Readings : List Reading :=
  [⟨0, 18, "energy_power", none⟩, ⟨60, 22, "energy_power", none⟩,
   ⟨120, 18, "energy_power", none⟩, ⟨180, 22, "energy_power", none⟩,
   ⟨240, 18, "energy_power", none⟩, ⟨300, 22, "energy_power", none⟩,
   ⟨360, 18, "energy_power", none⟩, ⟨420, 22, "energy_power", none⟩,
   ⟨480, 18, "energy_power", none⟩, ⟨540, 22, "energy_power", none⟩,
   ⟨600, 28, "energy_power", none⟩, ⟨660, 28, "energy_power", none⟩,
   ⟨720, 28, "energy_power", none⟩, ⟨780, 28, "energy_power", none⟩,
   ⟨840, 28, "energy_power", none⟩, ⟨900, 28, "energy_power", none⟩,
   ⟨960, 28, "energy_power", none⟩, ⟨1020, 28, "energy_power", none⟩,
   ⟨1080, 28, "energy_power", none⟩, ⟨1140, 28, "energy_power", none⟩]

/-- Twenty-four constant readings within hour 0 of the day: the latest
reading's hour bucket has zero standard deviation. -/
def c8Readings : List Reading :=
  [⟨0, 5, "unknown", none⟩, ⟨60, 5, "unknown", none⟩, ⟨120, 5, "unknown", none⟩,
   ⟨180, 5, "unknown", none⟩, ⟨240, 5, "unknown", none⟩, ⟨300, 5, "unknown", none⟩,
   ⟨360, 5, "unknown", none⟩, ⟨420, 5, "unknown", none⟩, ⟨480, 5, "unknown", none⟩,
   ⟨540, 5, "unknown", none⟩, ⟨600, 5, "unknown", none⟩, ⟨660, 5, "unknown", none⟩,
   ⟨720, 5, "unknown", none⟩, ⟨780, 5, "unknown", none⟩, ⟨840, 5, "unknown", none⟩,
   ⟨900, 5, "unknown", none⟩, ⟨960, 5, "unknown", none⟩, ⟨1020, 5, "unknown", none⟩,
   ⟨1080, 5, "unknown", none⟩, ⟨1140, 5, "unknown", none⟩, ⟨1200, 5, "unknown", none⟩,
   ⟨1260, 5, "unknown", none⟩, ⟨1320, 5, "unknown", none⟩, ⟨1380, 5, "unknown", none⟩]

/-- Anomaly stored first, with the earlier timestamp. -/
noncomputable def c4First : Anomaly :=
  { sensor_id := "x", anomaly_type := .unknown, severity := .low,
    confidence := 0, timestamp := 100, value := 0, expected_range := (0, 0) }

/-- Anomaly stored second, with the later timestamp. -/
noncomputable def c4Second : Anomaly :=
  { sensor_id := "y", anomaly_type := .unknown, severity := .low,
    confidence := 0, timestamp := 200, value := 0, expected_range := (0, 0) }

/-- Store holding both anomalies, in insertion order. -/
noncomputable def c4State : DetectorState :=
  { detected_anomalies := [c4First, c4Second] }

/-- A configuration with negative intervals (the spec's example of an
invalid configuration). -/
def c5Config : MonitoringConfig :=
  { sampling_interval := -60, anomaly_check_interval := -300 }

/-- Three readings used to exercise the window bound with capacity 2. -/
def c6Readings : List Reading :=
  [⟨1, 0, "", none⟩, ⟨2, 0, "", none⟩, ⟨3, 0, "", none⟩]

end SBEMS

namespace SBEMS

/-! ### Basic lemmas about the statistics helpers -/

theorem sqDevSum_nonneg' (xs : List ℚ) : 0 ≤ sqDevSum xs := sqDevSum_nonneg xs

/-! ### C5: construction performs no validation -/

/-- C5: constructing the monitoring system with negative
`sampling_interval` and `anomaly_check_interval` succeeds:
`MonitoringSystem.__init__` stores the config unvalidated and completes
normally (there is no failure path at construction time). -/
theorem monitoring_init_accepts_negative_intervals :
    (monitoring_system_init (some c5Config)).config.sampling_interval = -60 ∧
    (monitoring_system_init (some c5Config)).config.anomaly_check_interval = -300 ∧
    (monitoring_system_init (some c5Config)).is_running = false :=
  ⟨rfl, rfl, rfl⟩

/-! ### C4: `most_recent` returns the first stored in-window anomaly -/

/-- C4: with two in-window anomalies stored in order (timestamps 100 then
200), `get_anomaly_summary` reports `most_recent = 100` — the first
element of the filtered store — even though an in-window anomaly with the
later timestamp 200 exists. -/
theorem summary_most_recent_is_first_stored :
    (get_anomaly_summary c4State 300 1).most_recent = some 100 ∧
    c4Second ∈ c4State.detected_anomalies.filter
      (fun a => decide (300 - 1 * 3600 ≤ a.timestamp)) ∧
    c4Second.timestamp = 200 := by
  refine ⟨rfl, ?_, rfl⟩
  simp [c4State, c4First, c4Second]

/-! ### C9: summary counting consistency -/

theorem severity_counts_sum (l : List Anomaly) :
    (severityLevels.map
      (fun level => (l.filter (fun a => a.severity == level)).length)).sum
      = l.length := by
  induction l with
  | nil => rfl
  | cons a t ih =>
    simp only [severityLevels, List.map_cons, List.map_nil, List.sum_cons,
      List.sum_nil] at ih ⊢
    cases ha : a.severity <;> simp +decide [List.filter_cons, ha] <;> omega

theorem type_counts_sum (l : List Anomaly) :
    (anomalyTypes.map
      (fun atype => (l.filter (fun a => a.anomaly_type == atype)).length)).sum
      = l.length := by
  induction l with
  | nil => rfl
  | cons a t ih =>
    simp only [anomalyTypes, List.map_cons, List.map_nil, List.sum_cons,
      List.sum_nil] at ih ⊢
    cases ha : a.anomaly_type <;> simp +decide [List.filter_cons, ha] <;> omega

/-- C9: for every store, reference instant and window, the by-severity
counts and the by-type counts of `get_anomaly_summary` both sum to
`total_anomalies`, and all four severity keys and all seven type keys are
present (in enum order). -/
theorem summary_counts_consistent (st : DetectorState) (now hours : ℤ) :
    ((get_anomaly_summary st now hours).by_severity.map Prod.snd).sum
        = (get_anomaly_summary st now hours).total_anomalies ∧
    ((get_anomaly_summary st now hours).by_type.map Prod.snd).sum
        = (get_anomaly_summary st now hours).total_anomalies ∧
    (get_anomaly_summary st now hours).by_severity.map Prod.fst
        = ["low", "medium", "high", "critical"] ∧
    (get_anomaly_summary st now hours).by_type.map Prod.fst
        = ["energy_spike", "equipment_failure", "efficiency_drop",
           "network_isolation", "seasonal_deviation", "occupancy_mismatch",
           "unknown"] := by
  refine ⟨?_, ?_, ?_, ?_⟩
  · simp only [get_anomaly_summary, List.map_map, Function.comp]
    exact severity_counts_sum _
  · simp only [get_anomaly_summary, List.map_map, Function.comp]
    exact type_counts_sum _
  · simp [get_anomaly_summary, severityLevels, SeverityLevel.value]
  · simp [get_anomaly_summary, anomalyTypes, AnomalyType.value]

/-! ### C10: unguarded indexing of the per-sensor store -/

theorem detectAnomaliesLoop_ok_iff (iso : IsoModel) (st : DetectorState)
    (ids : List String) :
    (detectAnomaliesLoop iso st ids).isOk = true ↔
      ∀ sid ∈ ids, (storeLookup st.sensor_data sid).isSome = true := by
  induction ids with
  | nil => simp [detectAnomaliesLoop, Except.isOk, Except.toBool]
  | cons sid rest ih =>
    constructor
    · intro hl s hs
      unfold detectAnomaliesLoop at hl
      cases hfind : storeLookup st.sensor_data sid with
      | none =>
        rw [hfind] at hl
        simp [Except.isOk, Except.toBool] at hl
      | some readings =>
        rw [hfind] at hl
        rcases List.mem_cons.mp hs with rfl | hmem
        · simp [hfind]
        · cases hrec : detectAnomaliesLoop iso st rest with
          | error e =>
            rw [hrec] at hl
            simp [Except.isOk, Except.toBool] at hl
          | ok more =>
            exact ih.mp (by rw [hrec]; rfl) s hmem
    · intro h
      have hsid := h sid (List.mem_cons_self sid rest)
      cases hfind : storeLookup st.sensor_data sid with
      | none =>
        rw [hfind] at hsid
        simp at hsid
      | some readings =>
        have hrest := ih.mpr (fun s hs => h s (List.mem_cons.mpr (Or.inr hs)))
        unfold detectAnomaliesLoop
        rw [hfind]
        cases hrec : detectAnomaliesLoop iso st rest with
        | error e =>
          rw [hrec] at hrest
          simp [Except.isOk, Except.toBool] at hrest
        | ok more => rfl

/-- C10: `detect_anomalies` with an explicit id list completes normally
exactly when every listed id is a key of the per-sensor store (i.e. has
received at least one reading via `add_sensor_reading`); otherwise the
unguarded dict indexing raises `KeyError`. -/
theorem detect_anomalies_keyerror_iff (iso : IsoModel) (st : DetectorState)
    (ids : List String) :
    (detect_anomalies iso st (some ids)).isOk = true ↔
      ∀ sid ∈ ids, (storeLookup st.sensor_data sid).isSome = true := by
  rw [← detectAnomaliesLoop_ok_iff iso st ids]
  simp only [detect_anomalies]
  cases hloop : detectAnomaliesLoop iso st ids with
  | error e => simp [Except.isOk, Except.toBool]
  | ok l => simp [Except.isOk, Except.toBool]

end SBEMS

namespace SBEMS

/-! ### C6: the per-sensor window bound -/

/-- The stored list of sensor `sid` after a sequence of
`add_sensor_reading` calls on a fresh detector with window ca­pacity `w`. -/
def bufferAfterAdds (w : ℕ) (sid : String) (rs : List Reading) : List Reading :=
  (storeLookup ((rs.foldl (fun s r => add_sensor_reading s sid r)
      ({ window_size := w } : DetectorState)).sensor_data) sid).getD []

theorem bufferAdd_length_le (w : ℕ) (buf : List Reading) (r : Reading)
    (h : buf.length ≤ w) : (bufferAdd w buf r).length ≤ w := by
  unfold bufferAdd
  by_cases hlen : w < (buf ++ [r]).length
  · rw [if_pos hlen]
    simp
    simp at hlen
    omega
  · rw [if_neg hlen]
    simp at hlen ⊢
    omega

theorem foldl_bufferAdd (w : ℕ) (rs : List Reading) :
    ∀ (buf : List Reading), buf.length ≤ w →
      rs.foldl (bufferAdd w) buf = (buf ++ rs).drop (buf.length + rs.length - w) := by
  induction rs with
  | nil =>
    intro buf h
    simp [Nat.sub_eq_zero_of_le h]
  | cons r rest ih =>
    intro buf h
    rw [List.foldl_cons, ih (bufferAdd w buf r) (bufferAdd_length_le w buf r h)]
    unfold bufferAdd
    by_cases hlen : w < (buf ++ [r]).length
    · rw [if_pos hlen]
      have hbw : buf.length = w := by
        simp at hlen
        omega
      have e2 : ((buf ++ [r]).drop 1).length + rest.length - w = rest.length := by
        simp
        omega
      rw [e2]
      rw [← List.drop_append_of_le_length (by simp : (1 : ℕ) ≤ (buf ++ [r]).length)]
      rw [List.drop_drop]
      have e3 : buf.length + (r :: rest).length - w = rest.length + 1 := by
        simp
        omega
      rw [e3, List.append_assoc, List.singleton_append, Nat.add_comm]
    · rw [if_neg hlen]
      rw [List.append_assoc, List.singleton_append]
      congr 1
      simp
      omega

theorem storeLookup_storeUpdate_self (d : List (String × List Reading))
    (k : String) (f : List Reading → List Reading) :
    storeLookup (storeUpdate d k f) k = some (f ((storeLookup d k).getD [])) := by
  induction d with
  | nil => simp [storeLookup, storeUpdate]
  | cons p rest ih =>
    obtain ⟨k', v⟩ := p
    by_cases hk : k' = k
    · subst hk
      simp [storeLookup, storeUpdate]
    · simp only [storeUpdate, if_neg hk]
      have hb : (k' == k) = false := beq_eq_false_iff_ne.mpr hk
      simp only [storeLookup, List.find?_cons, hb] at ih ⊢
      exact ih

theorem foldl_add_lookup (sid : String) (rs : List Reading) :
    ∀ (st : DetectorState),
      (storeLookup ((rs.foldl (fun s r => add_sensor_reading s sid r) st).sensor_data)
          sid).getD []
        = rs.foldl (bufferAdd st.window_size) ((storeLookup st.sensor_data sid).getD []) := by
  induction rs with
  | nil => intro st; rfl
  | cons r rest ih =>
    intro st
    rw [List.foldl_cons, List.foldl_cons, ih (add_sensor_reading st sid r)]
    have hw : (add_sensor_reading st sid r).window_size = st.window_size := rfl
    rw [hw]
    congr 1
    simp [add_sensor_reading, storeLookup_storeUpdate_self]

/-- C6: after any sequence of `add_sensor_reading` calls for one sensor
on a fresh detector with window capacity `w`, the stored list never
exceeds `w` readings, and once more than `w` readings have been added it
holds exactly the last `w` of them, in insertion order. -/
theorem add_sensor_reading_window_bound (w : ℕ) (sid : String) (rs : List Reading) :
    (bufferAfterAdds w sid rs).length ≤ w ∧
    (w < rs.length →
      ((bufferAfterAdds w sid rs).length = w ∧
       bufferAfterAdds w sid rs = rs.drop (rs.length - w))) := by
  have key : bufferAfterAdds w sid rs = rs.drop (rs.length - w) := by
    unfold bufferAfterAdds
    rw [foldl_add_lookup]
    have h0 : ((storeLookup (({ window_size := w } : DetectorState)).sensor_data
        sid).getD []) = [] := rfl
    rw [h0, foldl_bufferAdd w rs [] (by simp)]
    simp
  refine ⟨?_, fun hM => ⟨?_, key⟩⟩
  · rw [key, List.length_drop]
    omega
  · rw [key, List.length_drop]
    omega

/-- Witness for C6 at capacity 2 and three insertions. -/
theorem add_sensor_reading_window_bound_witness :
    2 < c6Readings.length ∧
    ((bufferAfterAdds 2 "s" c6Readings).length = 2 ∧
     bufferAfterAdds 2 "s" c6Readings = c6Readings.drop (c6Readings.length - 2)) :=
  ⟨by decide, (add_sensor_reading_window_bound 2 "s" c6Readings).2 (by decide)⟩

end SBEMS

namespace SBEMS

/-! ### Structure of a `detect_anomalies` result -/

theorem detectResultList_cases (iso : IsoModel) (st : DetectorState)
    (sensor_ids : Option (List String)) :
    detectResultList iso st sensor_ids = [] ∨
    ∃ per_sensor,
      detectAnomaliesLoop iso st (match sensor_ids with
        | none => st.sensor_data.map Prod.fst
        | some l => l) = .ok per_sensor ∧
      detectResultList iso st sensor_ids = pySortDesc (per_sensor ++
        (if st.network_analysis && graphTruthy st.network_graph
         then detect_network_anomalies st else [])) := by
  simp only [detectResultList, detect_anomalies]
  cases h : detectAnomaliesLoop iso st (match sensor_ids with
      | none => st.sensor_data.map Prod.fst
      | some l => l) with
  | error e => exact Or.inl rfl
  | ok per_sensor => exact Or.inr ⟨per_sensor, rfl, rfl⟩

/-- C1 (amended): every list returned by `detect_anomalies` is sorted
descending by the Python key `(severity.value, timestamp)` — i.e. by the
lexicographic order of the severity NAME string (so "medium" sorts before
"low", "low" before "high", "high" before "critical"), ties of equal
severity with the more recent timestamp first. -/
theorem detect_anomalies_sorted_desc (iso : IsoModel) (st : DetectorState)
    (sensor_ids : Option (List String)) :
    List.Sorted sortRel (detectResultList iso st sensor_ids) := by
  rcases detectResultList_cases iso st sensor_ids with h | ⟨per, _, h⟩
  · rw [h]
    exact List.sorted_nil
  · rw [h]
    exact List.sorted_insertionSort sortRel _

/-! ### C2: which sensors can appear in a result -/

theorem mem_iso_sensor_id {iso : IsoModel} {sid : String} {rs : List Reading}
    {a : Anomaly} (ha : a ∈ detect_isolation_forest_anomalies iso sid rs) :
    a.sensor_id = sid := by
  simp only [detect_isolation_forest_anomalies, List.mem_filterMap] at ha
  obtain ⟨pr, _, hsome⟩ := ha
  by_cases hc : pr.1.1 = -1
  · rw [if_pos hc] at hsome
    have := Option.some.inj hsome
    rw [← this]
  · rw [if_neg hc] at hsome
    exact absurd hsome (by simp)

theorem mem_energy_sensor_id {thr : ℚ} {sid : String} {rs : List Reading}
    {a : Anomaly} (ha : a ∈ detect_energy_anomalies thr sid rs) :
    a.sensor_id = sid := by
  simp only [detect_energy_anomalies] at ha
  repeat' split at ha
  all_goals simp_all

theorem mem_temporal_sensor_id {sid : String} {rs : List Reading}
    {a : Anomaly} (ha : a ∈ detect_temporal_anomalies sid rs) :
    a.sensor_id = sid := by
  simp only [detect_temporal_anomalies] at ha
  repeat' split at ha
  all_goals simp_all

theorem analyze_correlation_sensor_id {sid1 sid2 : String}
    {rs1 rs2 : List Reading} {a : Anomaly}
    (h : analyze_sensor_correlation sid1 sid2 rs1 rs2 = some a) :
    a.sensor_id = sid1 := by
  simp only [analyze_sensor_correlation] at h
  repeat' split at h
  all_goals simp_all
  all_goals
    rw [← h]

theorem mem_correlation_sensor_id {st : DetectorState} {sid : String}
    {rs : List Reading} {a : Anomaly}
    (ha : a ∈ detect_correlation_anomalies st sid rs) :
    a.sensor_id = sid := by
  simp only [detect_correlation_anomalies] at ha
  split at ha
  · simp at ha
  · split at ha
    · simp at ha
    · obtain ⟨p, _, hsome⟩ := List.mem_filterMap.mp ha
      exact analyze_correlation_sensor_id hsome

theorem mem_network_anomalies {st : DetectorState} {a : Anomaly}
    (ha : a ∈ detect_network_anomalies st) :
    (∃ g, st.network_graph = some g ∧ g.degree a.sensor_id = 0) ∧
      1 ≤ sensorCount st a.sensor_id := by
  unfold detect_network_anomalies at ha
  split at ha
  · simp at ha
  · next g hg =>
    obtain ⟨n, hn, hsome⟩ := List.mem_filterMap.mp ha
    have hdeg : g.degree n = 0 := by
      have := (List.mem_filter.mp hn).2
      simpa using this
    split at hsome
    · simp at hsome
    · next rs hrs =>
      split at hsome
      · simp at hsome
      · next hne =>
        have haeq := Option.some.inj hsome
        have hsid : a.sensor_id = n := by rw [← haeq]
        refine ⟨⟨g, hg, by rw [hsid]; exact hdeg⟩, ?_⟩
        unfold sensorCount
        rw [hsid, hrs]
        simp only [Option.getD_some]
        cases rs with
        | nil => simp at hne
        | cons x xs => simp

theorem mem_detectAnomaliesLoop {iso : IsoModel} {st : DetectorState}
    {ids : List String} {l : List Anomaly}
    (h : detectAnomaliesLoop iso st ids = .ok l) :
    ∀ a ∈ l, st.min_samples_for_detection ≤ sensorCount st a.sensor_id := by
  induction ids generalizing l with
  | nil =>
    unfold detectAnomaliesLoop at h
    have := Except.ok.inj h
    rw [← this]
    simp
  | cons sid rest ih =>
    unfold detectAnomaliesLoop at h
    cases hfind : storeLookup st.sensor_data sid with
    | none =>
      rw [hfind] at h
      exact absurd h (by simp)
    | some readings =>
      rw [hfind] at h
      cases hrec : detectAnomaliesLoop iso st rest with
      | error e =>
        rw [hrec] at h
        exact absurd h (by simp)
      | ok more =>
        rw [hrec] at h
        have hl := Except.ok.inj h
        intro a ha
        rw [← hl] at ha
        rcases List.mem_append.mp ha with ha1 | ha2
        · by_cases hmin : readings.length < st.min_samples_for_detection
          · rw [if_pos hmin] at ha1
            simp at ha1
          · rw [if_neg hmin] at ha1
            have hsid : a.sensor_id = sid := by
              rcases List.mem_append.mp ha1 with h1 | h1
              · rcases List.mem_append.mp h1 with h2 | h2
                · rcases List.mem_append.mp h2 with h3 | h3
                  · exact mem_iso_sensor_id h3
                  · exact mem_energy_sensor_id h3
                · exact mem_temporal_sensor_id h2
              · exact mem_correlation_sensor_id h1
            rw [hsid]
            unfold sensorCount
            rw [hfind]
            simpa using not_lt.mp hmin
        · exact ih hrec a ha2

/-- C2 (amended): every anomaly returned by `detect_anomalies` concerns a
sensor that either has at least `min_samples_for_detection` stored
readings (all per-sensor checks) or is a degree-zero node of the network
graph with at least one stored reading (the network-isolation check,
which is not guarded by the min-samples threshold). -/
theorem detect_anomalies_min_samples (iso : IsoModel) (st : DetectorState)
    (sensor_ids : Option (List String)) :
    ∀ a ∈ detectResultList iso st sensor_ids,
      st.min_samples_for_detection ≤ sensorCount st a.sensor_id ∨
      ((∃ g, st.network_graph = some g ∧ g.degree a.sensor_id = 0) ∧
        1 ≤ sensorCount st a.sensor_id) := by
  intro a ha
  rcases detectResultList_cases iso st sensor_ids with h | ⟨per, hper, h⟩
  · rw [h] at ha
    simp at ha
  · rw [h] at ha
    have ha' := (List.perm_insertionSort sortRel _).mem_iff.mp ha
    rcases List.mem_append.mp ha' with h1 | h1
    · exact Or.inl (mem_detectAnomaliesLoop hper a h1)
    · by_cases hc : (st.network_analysis && graphTruthy st.network_graph) = true
      · rw [if_pos hc] at h1
        exact Or.inr (mem_network_anomalies h1)
      · rw [if_neg hc] at h1
        simp at h1

end SBEMS

namespace SBEMS

/-! ### Evaluation of the `st0` detection run -/

theorem conf_quarter_eval : (min 1 (|(1/4 : ℚ)| / 0.5)) = 1/2 := by
  rw [abs_of_pos (by norm_num : (0:ℚ) < 1/4)]
  rw [show (1/4 : ℚ) / 0.5 = 1/2 by norm_num]
  exact min_eq_right (by norm_num)

theorem isoAnom0_severity : isoAnom0.severity = SeverityLevel.medium := by
  show calculate_severity (min 1 (|(1/4 : ℚ)| / 0.5)) 5 s1Readings = SeverityLevel.medium
  rw [conf_quarter_eval]
  unfold calculate_severity
  rw [if_neg (by norm_num), if_neg (by norm_num), if_pos (by norm_num)]

theorem eval_iso_s1 :
    detect_isolation_forest_anomalies isoFlagFirst "s1" s1Readings = [isoAnom0] := rfl

theorem eval_energy_s1 : detect_energy_anomalies 2 "s1" s1Readings = [] := by
  simp only [detect_energy_anomalies]
  rw [if_neg (by decide)]

theorem eval_temporal_s1 : detect_temporal_anomalies "s1" s1Readings = [] := by
  simp only [detect_temporal_anomalies]
  rw [if_pos (by decide)]

theorem eval_corr_s1 : detect_correlation_anomalies st0 "s1" s1Readings = [] := by
  simp only [detect_correlation_anomalies]
  rw [if_neg (by decide), if_pos (by decide)]

theorem eval_network_st0 : detect_network_anomalies st0 = [netAnom0] := rfl

theorem eval_loop_st0 :
    detectAnomaliesLoop isoFlagFirst st0 ["s1", "s2"]
      = .ok [isoAnom0] := by
  have h1 : storeLookup st0.sensor_data "s1" = some s1Readings := rfl
  have h2 : storeLookup st0.sensor_data "s2" = some [s2Reading] := rfl
  simp only [detectAnomaliesLoop, h1, h2]
  rw [if_neg (by decide), if_pos (by decide)]
  rw [show st0.energy_spike_threshold = 2 from rfl]
  rw [eval_iso_s1, eval_energy_s1, eval_temporal_s1, eval_corr_s1]
  simp

theorem sortRel_iso_net : sortRel isoAnom0 netAnom0 := by
  unfold sortRel pyKey
  rw [isoAnom0_severity]
  decide

theorem eval_sort_st0 : pySortDesc [isoAnom0, netAnom0] = [isoAnom0, netAnom0] := by
  unfold pySortDesc
  simp only [List.insertionSort, List.orderedInsert]
  rw [if_pos sortRel_iso_net]

/-- Full evaluation of `detect_anomalies` on `st0`: one MEDIUM
isolation-forest anomaly for `s1`, then one HIGH network-isolation
anomaly for `s2` — in that order after the descending string sort. -/
theorem eval_detect_st0 :
    detectResultList isoFlagFirst st0 none = [isoAnom0, netAnom0] := by
  simp only [detectResultList, detect_anomalies]
  rw [show (st0.sensor_data.map Prod.fst) = ["s1", "s2"] from rfl]
  rw [eval_loop_st0]
  rw [if_pos (by decide)]
  rw [eval_network_st0]
  simp only [List.append_nil]
  exact eval_sort_st0

end SBEMS

namespace SBEMS

/-! ### C1 counterexample and C2 counterexample -/

/-- C1 is false on the code: the `st0` run returns its MEDIUM anomaly
before its HIGH anomaly (the sort key is the severity's `.value` string,
and "medium" > "high" lexicographically), so the output is not ordered by
the severity rank low < medium < high < critical descending. -/
theorem detect_rank_order_counterexample :
    (detectResultList isoFlagFirst st0 none).map
        (fun a => (a.severity, a.timestamp))
      = [(SeverityLevel.medium, (0 : ℤ)), (SeverityLevel.high, 5000)] ∧
    ¬ SortedBySeverityRankDesc (detectResultList isoFlagFirst st0 none) := by
  constructor
  · rw [eval_detect_st0]
    simp [isoAnom0_severity]
    exact ⟨rfl, rfl, rfl⟩
  · intro hsorted
    rw [eval_detect_st0] at hsorted
    unfold SortedBySeverityRankDesc at hsorted
    have hpair := (List.pairwise_cons.mp hsorted).1 netAnom0 (by simp)
    rw [isoAnom0_severity] at hpair
    rcases hpair with h | ⟨h, _⟩
    · rw [show netAnom0.severity = SeverityLevel.high from rfl] at h
      simp [severityRank] at h
    · rw [show netAnom0.severity = SeverityLevel.high from rfl] at h
      exact absurd h (by decide)

/-- C2 is false on the code: the `st0` run returns the network-isolation
anomaly of sensor `s2`, which has a single stored reading — below the
detector's `min_samples_for_detection` of 20. -/
theorem detect_below_min_samples_counterexample :
    netAnom0 ∈ detectResultList isoFlagFirst st0 none ∧
    netAnom0.sensor_id = "s2" ∧
    sensorCount st0 "s2" = 1 ∧
    sensorCount st0 "s2" < st0.min_samples_for_detection := by
  refine ⟨?_, rfl, rfl, by decide⟩
  rw [eval_detect_st0]
  simp

/-- Witness for the amended C2 theorem at the `st0` run: the returned
network anomaly falls under the network-isolation disjunct. -/
theorem detect_anomalies_min_samples_witness :
    netAnom0 ∈ detectResultList isoFlagFirst st0 none ∧
    (st0.min_samples_for_detection ≤ sensorCount st0 netAnom0.sensor_id ∨
     ((∃ g, st0.network_graph = some g ∧ g.degree netAnom0.sensor_id = 0) ∧
       1 ≤ sensorCount st0 netAnom0.sensor_id)) :=
  ⟨by rw [eval_detect_st0]; simp,
   detect_anomalies_min_samples isoFlagFirst st0 none netAnom0
     (by rw [eval_detect_st0]; simp)⟩

end SBEMS

namespace SBEMS

/-! ### Evaluation of the correlation pair (`st3`) -/

/-- Aligned value pairs of the correlation pair. -/
def corrPairs : List (ℚ × ℚ) :=
  [(0, 0), (100, 100), (200, 200), (300, 300), (400, 400), (500, 500),
   (600, 600), (700, 700), (800, 800), (900, 900),
   (0, 9), (1, 8), (2, 7), (3, 6), (4, 5), (5, 4), (6, 3), (7, 2), (8, 1), (9, 0)]

/-- First aligned value series. -/
def corrVals1 : List ℚ :=
  [0, 100, 200, 300, 400, 500, 600, 700, 800, 900, 0, 1, 2, 3, 4, 5, 6, 7, 8, 9]

/-- Second aligned value series. -/
def corrVals2 : List ℚ :=
  [0, 100, 200, 300, 400, 500, 600, 700, 800, 900, 9, 8, 7, 6, 5, 4, 3, 2, 1, 0]

theorem align_eval :
    align_sensor_readings corrReadings1 corrReadings2 = corrPairs := rfl

theorem corrPairs_fst : corrPairs.map Prod.fst = corrVals1 := rfl

theorem corrPairs_snd : corrPairs.map Prod.snd = corrVals2 := rfl

theorem corrVals1_drop :
    corrVals1.drop (corrVals1.length - 10)
      = [0, 1, 2, 3, 4, 5, 6, 7, 8, 9] := rfl

theorem corrVals2_drop :
    corrVals2.drop (corrVals2.length - 10)
      = [9, 8, 7, 6, 5, 4, 3, 2, 1, 0] := rfl

theorem sqDev_corrVals1 : sqDevSum corrVals1 = 7269735/4 := by
  norm_num [sqDevSum, qmean, corrVals1]

theorem sqDev_corrVals2 : sqDevSum corrVals2 = 7269735/4 := by
  norm_num [sqDevSum, qmean, corrVals2]

theorem crossDev_corrVals : crossDevSum corrVals1 corrVals2 = 7269075/4 := by
  norm_num [crossDevSum, qmean, corrVals1, corrVals2, List.zip]

theorem sqDev_ramp_up :
    sqDevSum [0, 1, 2, 3, 4, 5, 6, 7, 8, 9] = 165/2 := by
  norm_num [sqDevSum, qmean]

theorem sqDev_ramp_down :
    sqDevSum [(9 : ℚ), 8, 7, 6, 5, 4, 3, 2, 1, 0] = 165/2 := by
  norm_num [sqDevSum, qmean]

theorem crossDev_ramps :
    crossDevSum [0, 1, 2, 3, 4, 5, 6, 7, 8, 9] [(9 : ℚ), 8, 7, 6, 5, 4, 3, 2, 1, 0]
      = -(165/2) := by
  norm_num [crossDevSum, qmean, List.zip]

theorem pearson_full_eval :
    pearson corrVals1 corrVals2 = some ((44055 : ℝ)/44059) := by
  unfold pearson
  rw [if_neg (by rw [sqDev_corrVals1, sqDev_corrVals2]; norm_num)]
  congr 1
  rw [sqDev_corrVals1, sqDev_corrVals2, crossDev_corrVals]
  rw [show (((7269735/4 : ℚ) : ℝ) * ((7269735/4 : ℚ) : ℝ)) = ((7269735/4 : ℝ)) ^ 2 by
    push_cast
    ring]
  rw [Real.sqrt_sq (by norm_num)]
  push_cast
  norm_num

theorem pearson_recent_eval :
    pearson [0, 1, 2, 3, 4, 5, 6, 7, 8, 9] [(9 : ℚ), 8, 7, 6, 5, 4, 3, 2, 1, 0]
      = some (-1) := by
  unfold pearson
  rw [if_neg (by rw [sqDev_ramp_up, sqDev_ramp_down]; norm_num)]
  congr 1
  rw [sqDev_ramp_up, sqDev_ramp_down, crossDev_ramps]
  rw [show (((165/2 : ℚ) : ℝ) * ((165/2 : ℚ) : ℝ)) = ((165/2 : ℝ)) ^ 2 by
    push_cast
    ring]
  rw [Real.sqrt_sq (by norm_num)]
  push_cast
  norm_num

end SBEMS

namespace SBEMS

/-- The correlation-breakdown finding of the `st3` run: full correlation
44055/44059, recent correlation −1, confidence almost 2. -/
noncomputable def corrAnom3 : Anomaly :=
  { sensor_id := "c1", anomaly_type := .network_isolation,
    severity := .medium,
    confidence := |((44055 : ℝ)/44059) - (-1)|, timestamp := 3800, value := 9,
    expected_range := calculate_expected_range corrReadings1 }

theorem half_lt_corr_gap : (0.5 : ℝ) < |((44055 : ℝ)/44059) - (-1)| := by
  rw [show ((44055 : ℝ)/44059) - (-1) = 44055/44059 + 1 by ring]
  rw [abs_of_pos (by positivity)]
  norm_num

theorem eval_analyze_corr :
    analyze_sensor_correlation "c1" "c2" corrReadings1 corrReadings2
      = some corrAnom3 := by
  simp only [analyze_sensor_correlation, align_eval, corrPairs_fst, corrPairs_snd,
    corrVals1_drop, corrVals2_drop]
  rw [if_neg (by decide : ¬ corrPairs.length < 10)]
  rw [pearson_full_eval, pearson_recent_eval]
  simp only [half_lt_corr_gap, if_true]
  rfl

theorem eval_corr_detect_st3 :
    detect_correlation_anomalies st3 "c1" corrReadings1 = [corrAnom3] := by
  simp only [detect_correlation_anomalies]
  rw [if_neg (by decide : ¬ st3.sensor_data.length < 2)]
  rw [show (st3.sensor_data.filter (fun p =>
      !(p.1 == "c1") &&
        !(decide (p.2.length < st3.min_samples_for_detection)) &&
        zoneTruthy (corrReadings1.getLastD defaultReading).zone_id &&
        ((p.2.getLastD defaultReading).zone_id ==
          (corrReadings1.getLastD defaultReading).zone_id)))
      = [("c2", corrReadings2)] from rfl]
  rw [if_neg (by decide)]
  simp only [List.filterMap_cons, List.filterMap_nil, eval_analyze_corr]

/-- C3 is false on the code: a correlation-breakdown anomaly produced by
`_detect_correlation_anomalies` carries confidence
`|44055/44059 − (−1)| ≈ 1.9999`, strictly greater than 1. -/
theorem correlation_confidence_exceeds_one :
    (detect_correlation_anomalies st3 "c1" corrReadings1).map Anomaly.confidence
      = [|((44055 : ℝ)/44059) - (-1)|] ∧
    (1 : ℝ) < |((44055 : ℝ)/44059) - (-1)| := by
  constructor
  · rw [eval_corr_detect_st3]
    rfl
  · rw [show ((44055 : ℝ)/44059) - (-1) = 44055/44059 + 1 by ring]
    rw [abs_of_pos (by positivity)]
    norm_num

end SBEMS

namespace SBEMS

/-! ### C3 (amended): confidence ranges of the checks -/

theorem energy_confidence_bounds (thr : ℚ) (sid : String) (rs : List Reading) :
    ∀ a ∈ detect_energy_anomalies thr sid rs,
      0 ≤ a.confidence ∧ a.confidence ≤ 1 := by
  intro a ha
  simp only [detect_energy_anomalies] at ha
  repeat' split at ha
  all_goals
    first
      | exact absurd ha (List.not_mem_nil a)
      | (rw [List.mem_singleton] at ha
         subst ha
         exact ⟨le_min (by norm_num) (by positivity), min_le_left _ _⟩)

theorem temporal_confidence_bounds (sid : String) (rs : List Reading) :
    ∀ a ∈ detect_temporal_anomalies sid rs,
      0 ≤ a.confidence ∧ a.confidence ≤ 1 := by
  intro a ha
  simp only [detect_temporal_anomalies] at ha
  repeat' split at ha
  all_goals
    first
      | exact absurd ha (List.not_mem_nil a)
      | (rw [List.mem_singleton] at ha
         subst ha
         exact ⟨le_min (by norm_num) (by positivity), min_le_left _ _⟩)

theorem iso_confidence_bounds (iso : IsoModel) (sid : String) (rs : List Reading) :
    ∀ a ∈ detect_isolation_forest_anomalies iso sid rs,
      0 ≤ a.confidence ∧ a.confidence ≤ 1 := by
  intro a ha
  simp only [detect_isolation_forest_anomalies, List.mem_filterMap] at ha
  obtain ⟨pr, _, hsome⟩ := ha
  by_cases hc : pr.1.1 = -1
  · rw [if_pos hc] at hsome
    have heq := Option.some.inj hsome
    subst heq
    constructor
    · show (0:ℝ) ≤ ((min 1 (|pr.1.2| / 0.5) : ℚ) : ℝ)
      have h0 : (0:ℚ) ≤ min 1 (|pr.1.2| / 0.5) := le_min (by norm_num) (by positivity)
      exact_mod_cast h0
    · show ((min 1 (|pr.1.2| / 0.5) : ℚ) : ℝ) ≤ 1
      have h1 : min 1 (|pr.1.2| / 0.5) ≤ (1:ℚ) := min_le_left _ _
      exact_mod_cast h1
  · rw [if_neg hc] at hsome
    exact absurd hsome (by simp)

theorem network_confidence_one (st : DetectorState) :
    ∀ a ∈ detect_network_anomalies st, a.confidence = 1 := by
  intro a ha
  unfold detect_network_anomalies at ha
  split at ha
  · simp at ha
  · obtain ⟨n, _, hsome⟩ := List.mem_filterMap.mp ha
    split at hsome
    · simp at hsome
    · split at hsome
      · simp at hsome
      · have heq := Option.some.inj hsome
        subst heq
        rfl

theorem analyze_correlation_confidence (sid1 sid2 : String)
    (rs1 rs2 : List Reading) (a : Anomaly)
    (h : analyze_sensor_correlation sid1 sid2 rs1 rs2 = some a) :
    ∃ c rc,
      pearson ((align_sensor_readings rs1 rs2).map Prod.fst)
        ((align_sensor_readings rs1 rs2).map Prod.snd) = some c ∧
      pearson (((align_sensor_readings rs1 rs2).map Prod.fst).drop
          (((align_sensor_readings rs1 rs2).map Prod.fst).length - 10))
        (((align_sensor_readings rs1 rs2).map Prod.snd).drop
          (((align_sensor_readings rs1 rs2).map Prod.snd).length - 10)) = some rc ∧
      a.confidence = |c - rc| ∧ (0.5 : ℝ) < |c - rc| := by
  simp only [analyze_sensor_correlation] at h
  split at h
  · simp at h
  · split at h
    · simp at h
    · next correlation hcorr =>
      split at h
      · simp at h
      · next recent_corr hrec =>
        split at h
        · next hgt =>
          have heq := Option.some.inj h
          subst heq
          exact ⟨correlation, recent_corr, hcorr, hrec, rfl, hgt⟩
        · simp at h

/-- C3 (amended): the isolation-forest, energy, and temporal checks all
clamp confidence into [0, 1] and the network check fixes it at 1, but the
correlation-breakdown check sets confidence to
`|full_corr − recent_corr|`, which is only bounded below by the 0.5
trigger threshold and can exceed 1. -/
theorem anomaly_confidence_ranges :
    (∀ thr sid rs, ∀ a ∈ detect_energy_anomalies thr sid rs,
        0 ≤ a.confidence ∧ a.confidence ≤ 1) ∧
    (∀ sid rs, ∀ a ∈ detect_temporal_anomalies sid rs,
        0 ≤ a.confidence ∧ a.confidence ≤ 1) ∧
    (∀ iso sid rs, ∀ a ∈ detect_isolation_forest_anomalies iso sid rs,
        0 ≤ a.confidence ∧ a.confidence ≤ 1) ∧
    (∀ st, ∀ a ∈ detect_network_anomalies st, a.confidence = 1) ∧
    (∀ sid1 sid2 rs1 rs2 a,
        analyze_sensor_correlation sid1 sid2 rs1 rs2 = some a →
        ∃ c rc,
          pearson ((align_sensor_readings rs1 rs2).map Prod.fst)
            ((align_sensor_readings rs1 rs2).map Prod.snd) = some c ∧
          pearson (((align_sensor_readings rs1 rs2).map Prod.fst).drop
              (((align_sensor_readings rs1 rs2).map Prod.fst).length - 10))
            (((align_sensor_readings rs1 rs2).map Prod.snd).drop
              (((align_sensor_readings rs1 rs2).map Prod.snd).length - 10))
            = some rc ∧
          a.confidence = |c - rc| ∧ (0.5 : ℝ) < |c - rc|) :=
  ⟨energy_confidence_bounds, temporal_confidence_bounds, iso_confidence_bounds,
   network_confidence_one, analyze_correlation_confidence⟩

/-- Witness for the amended C3 theorem at the `st3` correlation pair. -/
theorem anomaly_confidence_ranges_witness :
    analyze_sensor_correlation "c1" "c2" corrReadings1 corrReadings2
        = some corrAnom3 ∧
    (∃ c rc,
      pearson ((align_sensor_readings corrReadings1 corrReadings2).map Prod.fst)
        ((align_sensor_readings corrReadings1 corrReadings2).map Prod.snd)
          = some c ∧
      pearson (((align_sensor_readings corrReadings1 corrReadings2).map
            Prod.fst).drop
          (((align_sensor_readings corrReadings1 corrReadings2).map
            Prod.fst).length - 10))
        (((align_sensor_readings corrReadings1 corrReadings2).map
            Prod.snd).drop
          (((align_sensor_readings corrReadings1 corrReadings2).map
            Prod.snd).length - 10)) = some rc ∧
      corrAnom3.confidence = |c - rc| ∧ (0.5 : ℝ) < |c - rc|) :=
  ⟨eval_analyze_corr,
   anomaly_confidence_ranges.2.2.2.2 "c1" "c2" corrReadings1 corrReadings2
     corrAnom3 eval_analyze_corr⟩

end SBEMS

namespace SBEMS

/-! ### C7: the energy-spike rule -/

/-- The z-score of the energy-spike check for a window of more than 10
readings: mean of the last 10 values minus mean of the earlier values,
over the standard deviation of the earlier values. -/
noncomputable def energyZ (rs : List Reading) : ℝ :=
  ((qmean ((rs.map Reading.value).drop ((rs.map Reading.value).length - 10)) : ℝ)
      - (qmean ((rs.map Reading.value).take ((rs.map Reading.value).length - 10)) : ℝ))
    / npStd ((rs.map Reading.value).take ((rs.map Reading.value).length - 10))

/-- C7: for an energy-typed window of more than 10 readings, the check
emits nothing when the historical standard deviation is zero; otherwise
it emits an ENERGY_SPIKE anomaly exactly when `|z|` exceeds the
threshold, with severity HIGH iff `|z| > 3` (else MEDIUM) and confidence
`min(1, |z|/3)`. -/
theorem energy_spike_characterisation (thr : ℚ) (sid : String)
    (rs : List Reading) (hlen : 10 < rs.length)
    (htype : is_energy_sensor ((rs.getLastD defaultReading).sensor_type) = true) :
    (npStd ((rs.map Reading.value).take ((rs.map Reading.value).length - 10)) = 0 →
        detect_energy_anomalies thr sid rs = []) ∧
    (npStd ((rs.map Reading.value).take ((rs.map Reading.value).length - 10)) ≠ 0 →
        ((detect_energy_anomalies thr sid rs ≠ [] ↔ (thr : ℝ) < |energyZ rs|) ∧
         ∀ a ∈ detect_energy_anomalies thr sid rs,
           a.anomaly_type = AnomalyType.energy_spike ∧
           a.severity = (if 3 < |energyZ rs| then SeverityLevel.high
                         else SeverityLevel.medium) ∧
           a.confidence = min 1 (|energyZ rs| / 3))) := by
  have hlen' : 10 ≤ (rs.map Reading.value).length := by
    simp
    omega
  have hlen'' : 10 < (rs.map Reading.value).length := by
    simp
    omega
  simp only [detect_energy_anomalies]
  rw [if_pos htype, if_pos hlen', if_pos hlen'', if_pos hlen'']
  have hzdef : energyZ rs
      = ((qmean ((rs.map Reading.value).drop ((rs.map Reading.value).length - 10)) : ℝ)
          - (qmean ((rs.map Reading.value).take ((rs.map Reading.value).length - 10)) : ℝ))
        / npStd ((rs.map Reading.value).take ((rs.map Reading.value).length - 10)) := rfl
  rw [← hzdef]
  constructor
  · intro h0
    rw [if_neg (by rw [h0]; exact lt_irrefl 0)]
  · intro hne
    have hpos : 0 < npStd ((rs.map Reading.value).take
        ((rs.map Reading.value).length - 10)) :=
      lt_of_le_of_ne (npStd_nonneg _) (Ne.symm hne)
    rw [if_pos hpos]
    by_cases hz : (thr : ℝ) < |energyZ rs|
    · rw [if_pos hz]
      refine ⟨iff_of_true (by simp) hz, ?_⟩
      intro a ha
      rw [List.mem_singleton] at ha
      subst ha
      exact ⟨rfl, rfl, rfl⟩
    · rw [if_neg hz]
      exact ⟨iff_of_false (by simp) hz, by simp⟩

theorem e7_hist_eval :
    (e7Readings.map Reading.value).take ((e7Readings.map Reading.value).length - 10)
      = [18, 22, 18, 22, 18, 22, 18, 22, 18, 22] := rfl

theorem e7_recent_eval :
    (e7Readings.map Reading.value).drop ((e7Readings.map Reading.value).length - 10)
      = [28, 28, 28, 28, 28, 28, 28, 28, 28, 28] := rfl

theorem e7_hist_std : npStd [18, 22, 18, 22, 18, 22, 18, 22, 18, 22] = 2 := by
  unfold npStd
  rw [show popVar [(18 : ℚ), 22, 18, 22, 18, 22, 18, 22, 18, 22] = 4 by
    norm_num [popVar, sqDevSum, qmean]]
  rw [show ((4 : ℚ) : ℝ) = 2 ^ 2 by norm_num]
  exact Real.sqrt_sq (by norm_num)

theorem e7_z_eval : energyZ e7Readings = 4 := by
  unfold energyZ
  rw [e7_hist_eval, e7_recent_eval, e7_hist_std]
  rw [show qmean [(28 : ℚ), 28, 28, 28, 28, 28, 28, 28, 28, 28] = 28 by
    norm_num [qmean]]
  rw [show qmean [(18 : ℚ), 22, 18, 22, 18, 22, 18, 22, 18, 22] = 20 by
    norm_num [qmean]]
  push_cast
  norm_num

/-- The spec's worked energy-spike example evaluated on the embedded
check: historical mean 20, std 2, recent mean 28 (z = 4) yields a single
HIGH anomaly with confidence capped at 1. -/
theorem e7_instance_eval :
    (detect_energy_anomalies 2 "e7" e7Readings).map
        (fun a => (a.anomaly_type, a.severity, a.confidence))
      = [(AnomalyType.energy_spike, SeverityLevel.high, (1 : ℝ))] := by
  simp only [detect_energy_anomalies]
  rw [if_pos (by decide : is_energy_sensor
    ((e7Readings.getLastD defaultReading).sensor_type) = true)]
  rw [if_pos (by decide : 10 ≤ (e7Readings.map Reading.value).length)]
  rw [if_pos (by decide : 10 < (e7Readings.map Reading.value).length)]
  rw [if_pos (by decide : 10 < (e7Readings.map Reading.value).length)]
  rw [e7_hist_eval, e7_recent_eval, e7_hist_std]
  rw [if_pos (by norm_num : (0:ℝ) < 2)]
  rw [show qmean [(28 : ℚ), 28, 28, 28, 28, 28, 28, 28, 28, 28] = 28 by
    norm_num [qmean]]
  rw [show qmean [(18 : ℚ), 22, 18, 22, 18, 22, 18, 22, 18, 22] = 20 by
    norm_num [qmean]]
  rw [show (((28 : ℚ) : ℝ) - ((20 : ℚ) : ℝ)) / 2 = 4 by push_cast; norm_num]
  rw [show |(4 : ℝ)| = 4 from abs_of_pos (by norm_num)]
  rw [if_pos (by push_cast; norm_num : ((2 : ℚ) : ℝ) < 4)]
  rw [if_pos (by norm_num : (3 : ℝ) < 4)]
  rw [show min 1 ((4 : ℝ) / 3) = 1 from min_eq_left (by norm_num)]
  rfl

/-- Witness for C7 at the spec's worked example. -/
theorem energy_spike_characterisation_witness :
    10 < e7Readings.length ∧
    is_energy_sensor ((e7Readings.getLastD defaultReading).sensor_type) = true ∧
    ((npStd ((e7Readings.map Reading.value).take
          ((e7Readings.map Reading.value).length - 10)) = 0 →
        detect_energy_anomalies 2 "e7" e7Readings = []) ∧
     (npStd ((e7Readings.map Reading.value).take
          ((e7Readings.map Reading.value).length - 10)) ≠ 0 →
        ((detect_energy_anomalies 2 "e7" e7Readings ≠ [] ↔
            ((2 : ℚ) : ℝ) < |energyZ e7Readings|) ∧
         ∀ a ∈ detect_energy_anomalies 2 "e7" e7Readings,
           a.anomaly_type = AnomalyType.energy_spike ∧
           a.severity = (if 3 < |energyZ e7Readings| then SeverityLevel.high
                         else SeverityLevel.medium) ∧
           a.confidence = min 1 (|energyZ e7Readings| / 3)))) :=
  ⟨by decide, by decide,
   energy_spike_characterisation 2 "e7" e7Readings (by decide) (by decide)⟩

/-! ### C8: the temporal rule under zero variance -/

/-- C8: with at least 24 readings, if the latest reading's hour bucket
has zero (pandas, `fillna(0)`) standard deviation, or no data at all, the
temporal check emits no anomaly. -/
theorem temporal_zero_variance_skip (sid : String) (rs : List Reading)
    (hlen : 24 ≤ rs.length)
    (hz : pandasStd (hour_bucket rs
            (hourOfTimestamp (rs.getLastD defaultReading).timestamp)) = 0 ∨
          hour_bucket rs
            (hourOfTimestamp (rs.getLastD defaultReading).timestamp) = []) :
    detect_temporal_anomalies sid rs = [] := by
  simp only [detect_temporal_anomalies]
  rw [if_neg (by omega : ¬ rs.length < 24)]
  by_cases hempty : (hour_bucket rs
      (hourOfTimestamp (rs.getLastD defaultReading).timestamp)).isEmpty
  · rw [if_pos hempty]
  · rw [if_neg hempty]
    rcases hz with hz | hz
    · rw [if_neg (by rw [hz]; exact lt_irrefl 0)]
    · exact absurd (by rw [hz]; rfl) hempty

theorem c8_bucket_eval :
    hour_bucket c8Readings
        (hourOfTimestamp (c8Readings.getLastD defaultReading).timestamp)
      = [5, 5, 5, 5, 5, 5, 5, 5, 5, 5, 5, 5, 5, 5, 5, 5, 5, 5, 5, 5, 5, 5, 5, 5] := rfl

theorem c8_std_zero :
    pandasStd (hour_bucket c8Readings
        (hourOfTimestamp (c8Readings.getLastD defaultReading).timestamp)) = 0 := by
  rw [c8_bucket_eval]
  unfold pandasStd
  rw [if_neg (by decide)]
  rw [show sampleVar
      [(5 : ℚ), 5, 5, 5, 5, 5, 5, 5, 5, 5, 5, 5, 5, 5, 5, 5, 5, 5, 5, 5, 5, 5, 5, 5]
      = 0 by norm_num [sampleVar, sqDevSum, qmean]]
  rw [show ((0 : ℚ) : ℝ) = 0 by norm_num]
  exact Real.sqrt_zero

/-- Witness for C8 at a constant 24-reading window. -/
theorem temporal_zero_variance_skip_witness :
    24 ≤ c8Readings.length ∧
    (pandasStd (hour_bucket c8Readings
        (hourOfTimestamp (c8Readings.getLastD defaultReading).timestamp)) = 0 ∨
     hour_bucket c8Readings
        (hourOfTimestamp (c8Readings.getLastD defaultReading).timestamp) = []) ∧
    detect_temporal_anomalies "t8" c8Readings = [] :=
  ⟨by decide, Or.inl c8_std_zero,
   temporal_zero_variance_skip "t8" c8Readings (by decide) (Or.inl c8_std_zero)⟩

end SBEMS
